import Mathlib

/-!
Verification development for the kick-js WebSocket chat client.

Shallow embedding of:
- src/core/messageHandling.ts (the protocol decoder, `parseMessage`)
- src/client/client.ts (the connection lifecycle manager created by `createClient`)

JavaScript machine state is modelled explicitly: the client's mutable
variables become a `ClientState` record, asynchronous callbacks become a
step function over an `Event` type, and side effects (logger calls, event
emissions, callback invocations) are collected in a `List Effect`.
-/

namespace KickJs

/-- Log levels of the `Logger` interface (src/types/client.ts). -/
inductive LogLevel where
  | debug
  | info
  | warn
  | error
deriving DecidableEq, Repr

/-- One logger invocation: level and the (first) message argument. -/
structure LogEntry where
  level : LogLevel
  msg : String
deriving DecidableEq, Repr

/-- JSON values, the domain of the wire protocol.  Objects keep their fields
as an association list in source order (duplicates possible, as in JSON
text); numbers are modelled as integers, which covers every value the
claims touch. -/
inductive Json where
  | null
  | bool (b : Bool)
  | num (n : Int)
  | str (s : String)
  | arr (elems : List Json)
  | obj (fields : List (String × Json))

/-- Skip JSON whitespace. -/
def skipWs : List Char → List Char
  | c :: cs =>
    if c = ' ' ∨ c = '\t' ∨ c = '\n' ∨ c = '\r' then skipWs cs else c :: cs
  | [] => []

/-- Value of a hexadecimal digit, if any. -/
def hexVal (c : Char) : Option Nat :=
  if '0' ≤ c ∧ c ≤ '9' then some (c.toNat - '0'.toNat)
  else if 'a' ≤ c ∧ c ≤ 'f' then some (c.toNat - 'a'.toNat + 10)
  else if 'A' ≤ c ∧ c ≤ 'F' then some (c.toNat - 'A'.toNat + 10)
  else none

/-- Parse the body of a JSON string literal (after the opening quote),
returning the decoded characters and the remaining input. -/
def parseStringBody : List Char → Except String (List Char × List Char)
  | [] => .error "Unterminated string in JSON"
  | c :: cs =>
    if c = '"' then .ok ([], cs)
    else if c = '\\' then
      match cs with
      | [] => .error "Unterminated escape in JSON"
      | 'u' :: h1 :: h2 :: h3 :: h4 :: cs2 =>
        match hexVal h1, hexVal h2, hexVal h3, hexVal h4 with
        | some a, some b, some c3, some d =>
          match parseStringBody cs2 with
          | .ok (body, rest) =>
            .ok (Char.ofNat (((a * 16 + b) * 16 + c3) * 16 + d) :: body, rest)
          | .error e => .error e
        | _, _, _, _ => .error "Bad unicode escape in JSON"
      | e :: cs2 =>
        let dec : Option Char :=
          if e = '"' then some '"'
          else if e = '\\' then some '\\'
          else if e = '/' then some '/'
          else if e = 'b' then some (Char.ofNat 8)
          else if e = 'f' then some (Char.ofNat 12)
          else if e = 'n' then some '\n'
          else if e = 'r' then some '\r'
          else if e = 't' then some '\t'
          else none
        match dec with
        | some d =>
          match parseStringBody cs2 with
          | .ok (body, rest) => .ok (d :: body, rest)
          | .error e2 => .error e2
        | none => .error "Bad escape in JSON"
    else
      match parseStringBody cs with
      | .ok (body, rest) => .ok (c :: body, rest)
      | .error e => .error e

/-- Parse a run of decimal digits. -/
def parseDigits : List Char → (List Char × List Char)
  | [] => ([], [])
  | c :: cs =>
    if c.isDigit then
      let (ds, rest) := parseDigits cs
      (c :: ds, rest)
    else ([], c :: cs)

/-- Digits to a natural number. -/
def digitsToNat (ds : List Char) : Nat :=
  ds.foldl (fun acc c => acc * 10 + (c.toNat - '0'.toNat)) 0

/-- Parse a JSON number (integer syntax only; fractions and exponents are
rejected, which no claim exercises). -/
def parseNumber (cs : List Char) : Except String (Json × List Char) :=
  let (neg, cs1) : Bool × List Char :=
    match cs with
    | '-' :: rest => (true, rest)
    | _ => (false, cs)
  match parseDigits cs1 with
  | ([], _) => .error "Unexpected token in JSON"
  | (ds, rest) =>
    match rest with
    | '.' :: _ => .error "Fractional numbers not modelled"
    | 'e' :: _ => .error "Exponent numbers not modelled"
    | 'E' :: _ => .error "Exponent numbers not modelled"
    | _ =>
      let n : Int := Int.ofNat (digitsToNat ds)
      .ok (Json.num (if neg then -n else n), rest)

mutual

/-- Fuelled recursive-descent parse of one JSON value. -/
def parseValueF : Nat → List Char → Except String (Json × List Char)
  | 0, _ => .error "Maximum depth exceeded"
  | Nat.succ fuel, cs =>
    match skipWs cs with
    | [] => .error "Unexpected end of JSON input"
    | 'n' :: 'u' :: 'l' :: 'l' :: rest => .ok (Json.null, rest)
    | 't' :: 'r' :: 'u' :: 'e' :: rest => .ok (Json.bool true, rest)
    | 'f' :: 'a' :: 'l' :: 's' :: 'e' :: rest => .ok (Json.bool false, rest)
    | '"' :: rest =>
      match parseStringBody rest with
      | .ok (body, rest2) => .ok (Json.str (String.mk body), rest2)
      | .error e => .error e
    | '[' :: rest =>
      (match skipWs rest with
      | ']' :: rest2 => .ok (Json.arr [], rest2)
      | _ =>
        match parseArrayItems fuel rest with
        | .ok (elems, rest2) => .ok (Json.arr elems, rest2)
        | .error e => .error e)
    | '\x7b' :: rest =>
      (match skipWs rest with
      | '\x7d' :: rest2 => .ok (Json.obj [], rest2)
      | _ =>
        match parseObjItems fuel rest with
        | .ok (fields, rest2) => .ok (Json.obj fields, rest2)
        | .error e => .error e)
    | c :: rest =>
      if c.isDigit ∨ c = '-' then parseNumber (c :: rest)
      else .error "Unexpected token in JSON"

/-- Fuelled parse of comma-separated array elements up to the closing
bracket. -/
def parseArrayItems : Nat → List Char → Except String (List Json × List Char)
  | 0, _ => .error "Maximum depth exceeded"
  | Nat.succ fuel, cs =>
    match parseValueF fuel cs with
    | .error e => .error e
    | .ok (v, rest) =>
      match skipWs rest with
      | ',' :: rest2 =>
        match parseArrayItems fuel rest2 with
        | .ok (vs, rest3) => .ok (v :: vs, rest3)
        | .error e => .error e
      | ']' :: rest2 => .ok ([v], rest2)
      | _ => .error "Expected comma or closing bracket in JSON"

/-- Fuelled parse of comma-separated object members up to the closing
brace. -/
def parseObjItems : Nat → List Char → Except String (List (String × Json) × List Char)
  | 0, _ => .error "Maximum depth exceeded"
  | Nat.succ fuel, cs =>
    match skipWs cs with
    | '"' :: rest =>
      match parseStringBody rest with
      | .error e => .error e
      | .ok (key, rest2) =>
        match skipWs rest2 with
        | ':' :: rest3 =>
          match parseValueF fuel rest3 with
          | .error e => .error e
          | .ok (v, rest4) =>
            match skipWs rest4 with
            | ',' :: rest5 =>
              match parseObjItems fuel rest5 with
              | .ok (fields, rest6) => .ok ((String.mk key, v) :: fields, rest6)
              | .error e => .error e
            | '\x7d' :: rest5 => .ok ([(String.mk key, v)], rest5)
            | _ => .error "Expected comma or closing brace in JSON"
        | _ => .error "Expected colon in JSON"
    | _ => .error "Expected string key in JSON"

end

/-- Modelled from the spec: the repository's `parseJSON` helper lives in
src/utils/utils.ts, which is not among the provided sources; per the spec
the wire envelope and its nested payload are JSON texts decoded with a
JSON.parse-like function that throws on malformed input.  `Except.error`
models the thrown exception.  Numbers are modelled as integers and string
escapes as the standard JSON set. -/
def parseJSON (s : String) : Except String Json :=
  match parseValueF (2 * s.length + 2) s.data with
  | .error e => .error e
  | .ok (j, rest) =>
    match skipWs rest with
    | [] => .ok j
    | _ => .error "Unexpected trailing characters in JSON"

mutual

/-- JavaScript String() conversion of a JSON value, as applied by
JSON.parse to a non-string argument. -/
def jsToStr : Json → String
  | .null => "null"
  | .bool true => "true"
  | .bool false => "false"
  | .num n => toString n
  | .str s => s
  | .arr elems => String.intercalate "," (jsArrItems elems)
  | .obj _ => "[object Object]"

/-- Array elements as Array.prototype.join renders them (null becomes the
empty string). -/
def jsArrItems : List Json → List String
  | [] => []
  | Json.null :: rest => "" :: jsArrItems rest
  | v :: rest => jsToStr v :: jsArrItems rest

end

/-- JavaScript coercion of a possibly-undefined value (None models
undefined) to the string JSON.parse receives. -/
def jsArgToString : Option Json → String
  | none => "undefined"
  | some v => jsToStr v

/-- JSON.parse applied to a JavaScript value, as in
parseJSON(messageEventJSON.data): the argument is coerced to a string
first. -/
def parseJSONField (d : Option Json) : Except String Json :=
  parseJSON (jsArgToString d)

/-- Last-wins field lookup, matching JavaScript object semantics where a
duplicated JSON key keeps the final occurrence. -/
def lookupField : List (String × Json) → String → Option Json
  | [], _ => none
  | kv :: rest, k =>
    match lookupField rest k with
    | some v => some v
    | none => if kv.1 = k then some kv.2 else none

/-- JavaScript property access `j[k]`: throws a TypeError on null, yields
undefined (None) on primitives and missing fields. -/
def jsGet : Json → String → Except String (Option Json)
  | .null, _ => .error "TypeError: Cannot read properties of null"
  | .obj fields, k => .ok (lookupField fields k)
  | _, _ => .ok none

/-- Result of a successful `parseMessage` arm: the event-type string and
the decoded inner payload (src/core/messageHandling.ts returns objects of
shape type/data). -/
structure ParsedMessage where
  type : String
  data : Json

/-- Shared shape of the known switch arms of `parseMessage`: look up the
envelope's data field, JSON-decode it, and pair it with the arm's type
string; `logs` are the logger calls the arm makes. -/
def parseArm (ty : String) (logs : List LogEntry) (j : Json) :
    Except String (Option ParsedMessage × List LogEntry) :=
  match jsGet j "data" with
  | .error e => .error e
  | .ok d =>
    match parseJSONField d with
    | .error e => .error e
    | .ok v => .ok (some ⟨ty, v⟩, logs)

/-- The logger call of the default (unrecognized tag) switch arm. -/
def unknownEventLog : LogEntry := ⟨.debug, "Unknown event type:"⟩

/-- The switch of `parseMessage` (src/core/messageHandling.ts lines
28-102) on the envelope's event tag. -/
def handleTag (tag : String) (j : Json) :
    Except String (Option ParsedMessage × List LogEntry) :=
  if tag = "App\\Events\\ChatMessageEvent" then parseArm "ChatMessage" [] j
  else if tag = "App\\Events\\SubscriptionEvent" then parseArm "Subscription" [] j
  else if tag = "App\\Events\\GiftedSubscriptionsEvent" then parseArm "GiftedSubscriptions" [] j
  else if tag = "App\\Events\\StreamHostEvent" then parseArm "StreamHost" [] j
  else if tag = "App\\Events\\MessageDeletedEvent" then parseArm "MessageDeleted" [] j
  else if tag = "App\\Events\\UserBannedEvent" then parseArm "UserBanned" [] j
  else if tag = "App\\Events\\UserUnbannedEvent" then parseArm "UserUnbanned" [] j
  else if tag = "App\\Events\\PinnedMessageCreatedEvent" then parseArm "PinnedMessageCreated" [] j
  else if tag = "App\\Events\\PinnedMessageDeletedEvent" then parseArm "PinnedMessageDeleted" [] j
  else if tag = "App\\Events\\PollUpdateEvent" then parseArm "PollUpdate" [] j
  else if tag = "App\\Events\\PollDeleteEvent" then parseArm "PollDelete" [] j
  else if tag = "pusher:connection_established" then
    parseArm "PusherConnectionEstablished" [⟨.debug, "Pusher connection established"⟩] j
  else if tag = "pusher_internal:subscription_succeeded" then
    parseArm "PusherSubscriptionSucceeded" [⟨.debug, "Pusher subscription succeeded"⟩] j
  else if tag = "pusher:pong" then parseArm "PusherPong" [⟨.debug, "Pusher pong received"⟩] j
  else if tag = "pusher:ping" then parseArm "PusherPing" [⟨.debug, "Pusher ping received"⟩] j
  else if tag = "pusher:error" then parseArm "PusherError" [⟨.warn, "Pusher error:"⟩] j
  else .ok (none, [unknownEventLog])

/-- Dispatch on the parsed envelope: read its event property (a JavaScript
property access, which can throw on null) and enter the switch; a
non-string or missing event tag falls through to the default arm. -/
def handleParsed (j : Json) : Except String (Option ParsedMessage × List LogEntry) :=
  match jsGet j "event" with
  | .error e => .error e
  | .ok (some (Json.str tag)) => handleTag tag j
  | .ok _ => .ok (none, [unknownEventLog])

/-- The body of `parseMessage` before its catch clause: outer JSON parse
followed by the switch; `Except.error` models a thrown exception. -/
def parseMessageE (s : String) : Except String (Option ParsedMessage × List LogEntry) :=
  match parseJSON s with
  | .error e => .error e
  | .ok j => handleParsed j

/-- The log emitted by the catch clause of `parseMessage`. -/
def parseFailLog : LogEntry := ⟨.error, "Error parsing message:"⟩

/-- `parseMessage` (src/core/messageHandling.ts): any exception raised
while decoding a frame is caught, logged at error level, and turned into a
null result.  Returns the value the caller sees plus the logger calls
made. -/
def parseMessage (s : String) : Option ParsedMessage × List LogEntry :=
  match parseMessageE s with
  | .ok r => r
  | .error _ => (none, [parseFailLog])

/-- The fixed event-tag mapping table of the `parseMessage` switch: wire
tag to emitted event-type string. -/
def eventTagTable : List (String × String) :=
  [("App\\Events\\ChatMessageEvent", "ChatMessage"),
   ("App\\Events\\SubscriptionEvent", "Subscription"),
   ("App\\Events\\GiftedSubscriptionsEvent", "GiftedSubscriptions"),
   ("App\\Events\\StreamHostEvent", "StreamHost"),
   ("App\\Events\\MessageDeletedEvent", "MessageDeleted"),
   ("App\\Events\\UserBannedEvent", "UserBanned"),
   ("App\\Events\\UserUnbannedEvent", "UserUnbanned"),
   ("App\\Events\\PinnedMessageCreatedEvent", "PinnedMessageCreated"),
   ("App\\Events\\PinnedMessageDeletedEvent", "PinnedMessageDeleted"),
   ("App\\Events\\PollUpdateEvent", "PollUpdate"),
   ("App\\Events\\PollDeleteEvent", "PollDelete"),
   ("pusher:connection_established", "PusherConnectionEstablished"),
   ("pusher_internal:subscription_succeeded", "PusherSubscriptionSucceeded"),
   ("pusher:pong", "PusherPong"),
   ("pusher:ping", "PusherPing"),
   ("pusher:error", "PusherError")]

/-- An input is a well-formed envelope when it parses as JSON to an object
carrying an event field. -/
def wellFormedEnvelope (s : String) : Bool :=
  match parseJSON s with
  | .error _ => false
  | .ok (Json.obj fields) => fields.any (fun kv => kv.1 = "event")
  | .ok _ => false

/-- Decoding a frame fails when the try-block of `parseMessage` raises. -/
def decodeFails (s : String) : Bool :=
  match parseMessageE s with
  | .error _ => true
  | .ok _ => false

/-! ## The connection lifecycle manager (src/client/client.ts) -/

/-- The `ConnectionState` enum of src/types/client.ts. -/
inductive ConnState where
  | disconnected
  | connecting
  | connected
  | reconnecting
  | error
deriving DecidableEq, Repr

/-- WebSocket readyState values of the `ws` transport. -/
inductive ReadyState where
  | connecting
  | open
  | closing
  | closed
deriving DecidableEq, Repr

/-- The channelInfo record: chatroom id and channel name. -/
structure ChannelInfo where
  id : Int
  name : String
deriving DecidableEq, Repr

/-- The `ErrorType` enum of src/types/client.ts. -/
inductive ErrorType where
  | connection
  | websocket
  | validation
deriving DecidableEq, Repr

/-- Externally observable side effects of a client step: logger calls,
the onConnectionStateChange and onError callbacks, emitter emissions, the
settlement of the pending connect() promise, the reconnect scheduler
invoking connect(), the heartbeat ping, and closing the transport. -/
inductive Effect where
  | log (lvl : LogLevel) (msg : String)
  | stateChange (st : ConnState)
  | errorCb (t : ErrorType)
  | emit (event : String)
  | emitReady (ci : Option ChannelInfo)
  | resolveConnect
  | rejectConnect
  | schedulerConnect
  | ping
  | closeSocket
deriving DecidableEq, Repr

/-- The merged connection options (defaults already applied per
`defaultConnectionOptions` spread).  A zero stands for a JavaScript falsy
numeric option value. -/
structure ConnectionOptions where
  autoReconnect : Bool
  maxReconnectAttempts : Nat
  reconnectInterval : Nat
  maxReconnectInterval : Nat
  heartbeatInterval : Nat
deriving DecidableEq, Repr

/-- The `defaultConnectionOptions` literal of src/client/client.ts. -/
def defaultConnectionOptions : ConnectionOptions :=
  ⟨true, 10, 1000, 30000, 30000⟩

/-- Client configuration relevant to the lifecycle manager. -/
structure Config where
  channelName : String
  plainEmote : Bool
  connection : ConnectionOptions
deriving DecidableEq, Repr

/-- A default configuration: defaults only, no emote rewriting. -/
def cfgDefault : Config := ⟨"xqc", false, defaultConnectionOptions⟩

/-- The mutable variables captured by the `createClient` closure, plus a
socket-creation counter (socketsCreated) and two bookkeeping bits for the
suspended parts of `connect()`: fetchPending records an in-flight channel
resolution, schedulerAwaiting records that the pending connect() promise
was awaited by the reconnect scheduler's timer callback. -/
structure ClientState where
  socket : Option ReadyState
  socketsCreated : Nat
  channelInfo : Option ChannelInfo
  connectionState : ConnState
  reconnectAttempts : Nat
  reconnectTimer : Option Nat
  heartbeatTimer : Bool
  isDisconnected : Bool
  fetchPending : Bool
  schedulerAwaiting : Bool
deriving DecidableEq, Repr

/-- Initial closure state of a fresh client. -/
def initState : ClientState :=
  ⟨none, 0, none, .disconnected, 0, none, false, false, false, false⟩

/-- JavaScript `x || d` on a numeric option: zero (falsy) falls back to
the default. -/
def orDefault (n d : Nat) : Nat := if n = 0 then d else n

/-- setConnectionState: update the state and notify, only on change. -/
def setState (s : ClientState) (st : ConnState) : ClientState × List Effect :=
  if s.connectionState = st then (s, [])
  else ({s with connectionState := st},
        [.log .info "Connection state changed to:", .stateChange st])

/-- handleError: log at error level, then invoke the onError callback. -/
def handleErrorEffs (t : ErrorType) (msg : String) : List Effect :=
  [.log .error msg, .errorCb t]

/-- startHeartbeat: a no-op when the interval is falsy or a timer already
runs. -/
def startHeartbeat (cfg : Config) (s : ClientState) : ClientState :=
  if cfg.connection.heartbeatInterval = 0 ∨ s.heartbeatTimer then s
  else {s with heartbeatTimer := true}

/-- stopHeartbeat: clear the interval timer. -/
def stopHeartbeat (s : ClientState) : ClientState :=
  {s with heartbeatTimer := false}

/-- scheduleReconnect (src/client/client.ts lines 163-187): refuse when
auto-reconnect is off, the attempt cap is reached, or the client was
explicitly disconnected; otherwise arm the timer with the capped
exponential backoff delay. -/
def scheduleReconnect (cfg : Config) (s : ClientState) : ClientState × List Effect :=
  if ¬cfg.connection.autoReconnect ∨
      s.reconnectAttempts ≥ orDefault cfg.connection.maxReconnectAttempts 10 ∨
      s.isDisconnected then
    (s, [.log .warn "Reconnection disabled or max attempts reached"])
  else
    let base := orDefault cfg.connection.reconnectInterval 1000
    let maxI := orDefault cfg.connection.maxReconnectInterval 30000
    let delay := min (base * 2 ^ s.reconnectAttempts) maxI
    ({s with reconnectTimer := some delay},
     [.log .info "Scheduling reconnection attempt"])

/-- The part of `connect()` before its first await: enter Connecting and
begin the channel resolution fetch. -/
def connectBegin (s : ClientState) : ClientState × List Effect :=
  let r1 := setState s .connecting
  ({r1.1 with fetchPending := true}, .log .info "Connecting to channel:" :: r1.2)

/-- A `connect()` invocation: if the socket is already open, resolve
immediately; otherwise start a connection attempt. -/
def connectStep (s : ClientState) : ClientState × List Effect :=
  if s.socket = some .open then
    (s, [.log .debug "Already connected to WebSocket", .resolveConnect])
  else connectBegin s

/-- The catch clause of `connect()` (resolution failure or socket
creation failure), composed with the reconnect-scheduler timer callback's
own catch when that callback was the awaiting caller: enter Error, report
a ConnectionError, reject the promise, and on the scheduler path bump the
attempt counter and reschedule. -/
def connectCatch (cfg : Config) (s : ClientState) : ClientState × List Effect :=
  let r1 := setState s .error
  let e2 := handleErrorEffs .connection "Failed to create WebSocket connection"
  if r1.1.schedulerAwaiting then
    let s2 := {r1.1 with reconnectAttempts := r1.1.reconnectAttempts + 1,
                         schedulerAwaiting := false}
    let r3 := scheduleReconnect cfg s2
    (r3.1, r1.2 ++ e2 ++ [.rejectConnect, .log .error "Reconnection attempt failed"] ++ r3.2)
  else (r1.1, r1.2 ++ e2 ++ [.rejectConnect])

/-- The channel resolution fetch resolves: a falsy chatroom id throws into
the catch clause; otherwise record channelInfo and create the WebSocket
(handlers attached, readyState CONNECTING). -/
def fetchOkStep (cfg : Config) (s : ClientState) (id : Int) : ClientState × List Effect :=
  if ¬s.fetchPending then (s, [])
  else
    let s0 := {s with fetchPending := false}
    if id = 0 then connectCatch cfg s0
    else
      ({s0 with channelInfo := some ⟨id, cfg.channelName⟩,
                socket := some .connecting,
                socketsCreated := s0.socketsCreated + 1},
       [.log .info "Found chatroom ID"])

/-- The channel resolution fetch rejects: the catch clause runs. -/
def fetchErrStep (cfg : Config) (s : ClientState) : ClientState × List Effect :=
  if ¬s.fetchPending then (s, [])
  else connectCatch cfg {s with fetchPending := false}

/-- The socket's open handler (src/client/client.ts lines 222-234): the
transport becomes open; if the client was explicitly disconnected the
event is ignored, otherwise enter Connected, reset the attempt counter,
start the heartbeat, emit ready, and resolve connect(). -/
def openStep (cfg : Config) (s : ClientState) : ClientState × List Effect :=
  if s.socket = some .connecting then
    let s0 := {s with socket := some .open}
    if s0.isDisconnected then
      (s0, [.log .debug "Connection opened but client is disconnected, ignoring"])
    else
      let r1 := setState s0 .connected
      let s2 := startHeartbeat cfg {r1.1 with reconnectAttempts := 0}
      ({s2 with schedulerAwaiting := false},
       .log .info "Connected to channel:" :: r1.2 ++
         [.emitReady s2.channelInfo, .resolveConnect])
  else (s, [])

/-- Logger calls turned into effects. -/
def msgLogEffs (l : List LogEntry) : List Effect :=
  l.map (fun e => .log e.level e.msg)

/-- Rewrite emote markup in a string: every occurrence of
[emote:digits:word] is replaced by the word, all other characters are
kept (the /\[emote:(\d+):(\w+)\]/g replace). -/
def matchEmote (cs : List Char) : Option (List Char × List Char) :=
  match cs with
  | 'e' :: 'm' :: 'o' :: 't' :: 'e' :: ':' :: rest =>
    match parseDigits rest with
    | ([], _) => none
    | (_, rest2) =>
      match rest2 with
      | ':' :: rest3 =>
        let (ws, rest4) := rest3.span (fun c => c.isAlphanum ∨ c = '_')
        match ws, rest4 with
        | [], _ => none
        | _, ']' :: rest5 => some (ws, rest5)
        | _, _ => none
      | _ => none
  | _ => none

/-- Fuelled scan for the emote rewrite. -/
def emoteReplaceFuel : Nat → List Char → List Char
  | 0, l => l
  | _ + 1, [] => []
  | n + 1, c :: rest =>
    if c = '[' then
      match matchEmote rest with
      | some (w, rest2) => w ++ emoteReplaceFuel n rest2
      | none => '[' :: emoteReplaceFuel n rest
    else c :: emoteReplaceFuel n rest

/-- The plainEmote content rewrite. -/
def plainEmoteReplace (s : String) : String :=
  String.mk (emoteReplaceFuel (s.length + 1) s.data)

/-- Set an existing field of a JSON object (the content mutation). -/
def setField (j : Json) (k : String) (v : Json) : Json :=
  match j with
  | .obj fields => .obj (fields.map fun kv => if kv.1 = k then (kv.1, v) else kv)
  | other => other

/-- The plainEmote branch of the message handler: read
messageData.content and call .replace on it; a missing or non-string
content throws a TypeError. -/
def emoteRewriteJs (d : Json) : Except String Json :=
  match jsGet d "content" with
  | .error e => .error e
  | .ok (some (Json.str c)) => .ok (setField d "content" (Json.str (plainEmoteReplace c)))
  | .ok _ => .error "TypeError: content has no replace method"

/-- The socket's message handler (src/client/client.ts lines 236-288):
drop the frame when explicitly disconnected; otherwise decode it and
route the result.  A null decode result does nothing further; the
per-frame try/catch turns an exception (only the plainEmote rewrite can
raise inside the modelled handler) into a WebsocketError report. -/
def messageEffects (cfg : Config) (s : ClientState) (frame : String) : List Effect :=
  if s.isDisconnected then []
  else
    let pr := parseMessage frame
    let pe := msgLogEffs pr.2
    match pr.1 with
    | none => pe
    | some pm =>
      if pm.type = "ChatMessage" then
        if cfg.plainEmote then
          match emoteRewriteJs pm.data with
          | .ok _ => pe ++ [.emit "ChatMessage"]
          | .error _ =>
            pe ++ handleErrorEffs .websocket "Failed to parse WebSocket message"
        else pe ++ [.emit "ChatMessage"]
      else if pm.type = "PusherConnectionEstablished" then
        pe ++ [.log .debug "Pusher WebSocket connection established"]
      else if pm.type = "PusherSubscriptionSucceeded" then
        pe ++ [.log .debug "Successfully subscribed to chat channel"]
      else if pm.type = "PusherPong" then
        pe ++ [.log .debug "Received Pusher pong"]
      else if pm.type = "PusherPing" then
        pe ++ [.log .debug "Received Pusher ping"]
      else if pm.type = "PusherError" then
        pe ++ [.log .error "Pusher error:"]
      else pe ++ [.emit pm.type]

/-- The message handler never mutates the closure's state: it only
decodes, optionally rewrites the payload, and emits. -/
def messageStep (cfg : Config) (s : ClientState) (frame : String) : ClientState × List Effect :=
  (s, messageEffects cfg s frame)

/-- The socket's close handler (src/client/client.ts lines 290-298): stop
the heartbeat; unless explicitly disconnected, enter Disconnected, emit
disconnect, and ask the scheduler for a retry. -/
def closeStep (cfg : Config) (s : ClientState) : ClientState × List Effect :=
  match s.socket with
  | none => (s, [])
  | some _ =>
    let s0 := stopHeartbeat {s with socket := some .closed}
    if s0.isDisconnected then (s0, [])
    else
      let r1 := setState s0 .disconnected
      let r2 := scheduleReconnect cfg r1.1
      (r2.1, .log .warn "Connection closed for channel:" :: r1.2 ++ [.emit "disconnect"] ++ r2.2)

/-- The socket's error handler (src/client/client.ts lines 300-311): stop
the heartbeat, enter Error, report a WebsocketError, emit error, reject
the pending connect(); when that promise was the scheduler's, its catch
bumps the attempt counter and reschedules. -/
def errorStep (cfg : Config) (s : ClientState) : ClientState × List Effect :=
  match s.socket with
  | none => (s, [])
  | some _ =>
    let s0 := stopHeartbeat s
    let r1 := setState s0 .error
    let base := r1.2 ++ handleErrorEffs .websocket "WebSocket connection error" ++
      [.emit "error", .rejectConnect]
    if r1.1.schedulerAwaiting then
      let s2 := {r1.1 with reconnectAttempts := r1.1.reconnectAttempts + 1,
                           schedulerAwaiting := false}
      let r3 := scheduleReconnect cfg s2
      (r3.1, base ++ [.log .error "Reconnection attempt failed"] ++ r3.2)
    else (r1.1, base)

/-- The reconnect timer fires: clear the timer handle and invoke
connect(), remembering that the scheduler awaits the result.  A cleared
timer never fires. -/
def reconnectFireStep (s : ClientState) : ClientState × List Effect :=
  match s.reconnectTimer with
  | none => (s, [])
  | some _ =>
    let s0 := {s with reconnectTimer := none}
    if s0.socket = some .open then
      (s0, [.schedulerConnect, .log .debug "Already connected to WebSocket", .resolveConnect])
    else
      let r1 := connectBegin s0
      ({r1.1 with schedulerAwaiting := true}, .schedulerConnect :: r1.2)

/-- The heartbeat interval fires: send a ping only when the socket is
currently open.  A cleared timer never fires, and the callback never
mutates the closure's state. -/
def heartbeatFireStep (s : ClientState) : ClientState × List Effect :=
  (s, if s.heartbeatTimer ∧ s.socket = some .open then
        [.log .debug "Sending heartbeat ping", .ping]
      else [])

/-- disconnect() (src/client/client.ts lines 330-361): mark the client
explicitly disconnected, enter Disconnected, cancel the reconnect timer,
stop the heartbeat, tear down the socket (listeners removed, closed if
open), clear all emitter listeners, and reset channelInfo and the attempt
counter. -/
def disconnectStep (s : ClientState) : ClientState × List Effect :=
  let r1 := setState {s with isDisconnected := true} .disconnected
  let s2 := stopHeartbeat {r1.1 with reconnectTimer := none}
  let closeEff : List Effect :=
    match s2.socket with
    | some .open => [.closeSocket]
    | _ => []
  let s3 := {s2 with socket := none, channelInfo := none, reconnectAttempts := 0}
  (s3, .log .info "Disconnecting client..." :: r1.2 ++ closeEff ++
    [.log .info "Client disconnected and cleaned up"])

/-- The asynchronous occurrences that drive the client: public API calls,
the resolution fetch settling, transport events, and timer callbacks. -/
inductive Event where
  | connectCall
  | fetchOk (id : Int)
  | fetchErr
  | sockOpen
  | sockMessage (frame : String)
  | sockClose
  | sockError
  | reconnectFire
  | heartbeatFire
  | disconnectCall
deriving DecidableEq, Repr

/-- One step of the client: dispatch an event to its handler.  Transport
events are delivered only while a socket exists; messages only while it
is open. -/
def step (cfg : Config) (s : ClientState) : Event → ClientState × List Effect
  | .connectCall => connectStep s
  | .fetchOk id => fetchOkStep cfg s id
  | .fetchErr => fetchErrStep cfg s
  | .sockOpen => openStep cfg s
  | .sockMessage f => if s.socket = some .open then messageStep cfg s f else (s, [])
  | .sockClose => closeStep cfg s
  | .sockError => errorStep cfg s
  | .reconnectFire => reconnectFireStep s
  | .heartbeatFire => heartbeatFireStep s
  | .disconnectCall => disconnectStep s

/-- Run a sequence of events, accumulating effects. -/
def run (cfg : Config) (s : ClientState) : List Event → ClientState × List Effect
  | [] => (s, [])
  | e :: es =>
    let r1 := step cfg s e
    let r2 := run cfg r1.1 es
    (r2.1, r1.2 ++ r2.2)

/-! ## The listener registry (Node EventEmitter semantics) -/

/-- A subscribed callback: invoked with the dispatched payload, it either
returns or raises. -/
def Listener := Json → Except String Unit

/-- Node's EventEmitter.emit as used by the client's dispatch: invoke the
registered callbacks in insertion order; a raised exception propagates at
once, skipping the remaining callbacks.  Returns how many callbacks were
invoked and the propagated exception, if any. -/
def runListeners : List Listener → Json → Nat × Option String
  | [], _ => (0, none)
  | f :: fs, p =>
    match f p with
    | .ok _ =>
      let (n, e) := runListeners fs p
      (n + 1, e)
    | .error e => (1, some e)

/-! ## Decoder theorems -/

lemma lookupField_eq_none (fs : List (String × Json)) (k : String)
    (h : fs.any (fun kv => kv.1 = k) = false) : lookupField fs k = none := by
  induction fs with
  | nil => rfl
  | cons kv rest ih =>
    simp only [List.any_cons, Bool.or_eq_false_iff] at h
    unfold lookupField
    rw [ih h.2]
    simp only [decide_eq_false_iff_not] at h
    rw [if_neg h.1]

/-- C1 (amended): for every frame that is not a well-formed envelope (the
outer JSON parse fails, or the parsed value is not an object carrying an
event field), `parseMessage` returns null: no event value at all, so in
particular never a partially-populated one.  The failure is handled
internally (the catch clause logs it); no DecodeError reaches the
caller. -/
theorem parseMessage_malformed_none (s : String) (h : wellFormedEnvelope s = false) :
    (parseMessage s).1 = none := by
  cases hp : parseJSON s with
  | error e => simp [parseMessage, parseMessageE, hp]
  | ok j =>
    simp only [wellFormedEnvelope, hp] at h
    cases j with
    | null => simp [parseMessage, parseMessageE, hp, handleParsed, jsGet]
    | bool b => simp [parseMessage, parseMessageE, hp, handleParsed, jsGet]
    | num n => simp [parseMessage, parseMessageE, hp, handleParsed, jsGet]
    | str t => simp [parseMessage, parseMessageE, hp, handleParsed, jsGet]
    | arr l => simp [parseMessage, parseMessageE, hp, handleParsed, jsGet]
    | obj fields =>
      simp [parseMessage, parseMessageE, hp, handleParsed, jsGet,
        lookupField_eq_none fields "event" h]

/-- Witness for C1's amended theorem at the malformed frame consisting of
a lone opening brace. -/
theorem parseMessage_malformed_none_witness :
    wellFormedEnvelope "\x7b" = false ∧ (parseMessage "\x7b").1 = none :=
  ⟨by decide, parseMessage_malformed_none "\x7b" (by decide)⟩

/-- Counterexample to C1 as stated: on a malformed frame `parseMessage`
does not fail with a DecodeError.  It returns normally with null, merely
logging the exception, and that caller-visible result is identical to the
result for a perfectly well-formed envelope carrying an unrecognized tag:
no error value distinguishes the failure. -/
theorem parseMessage_no_decode_error_cx :
    (parseMessage "\x7b").1 = none ∧
    (parseMessage "\x7b").2 = [parseFailLog] ∧
    (parseMessage "\x7b").1 = (parseMessage "\x7b\"event\":\"unreleased:tag\"\x7d").1 :=
  ⟨rfl, rfl, rfl⟩

/-- C3: for every tag in the fixed mapping table, decoding a well-formed
envelope carrying that tag (with a decodable inner payload) yields an
event whose type is the table's mapping, with the payload decoded; and
for every tag outside the table, `parseMessage` returns the
unrecognized-frame result (null plus a debug log) rather than failing. -/
theorem parseMessage_tag_table :
    (∀ (s : String) (j : Json) (tag ty : String) (d : Json) (v : Json),
      parseJSON s = .ok j →
      (tag, ty) ∈ eventTagTable →
      jsGet j "event" = .ok (some (Json.str tag)) →
      jsGet j "data" = .ok (some d) →
      parseJSONField (some d) = .ok v →
      (parseMessage s).1 = some ⟨ty, v⟩) ∧
    (∀ (s : String) (j : Json) (tag : String),
      parseJSON s = .ok j →
      jsGet j "event" = .ok (some (Json.str tag)) →
      tag ∉ eventTagTable.map Prod.fst →
      parseMessage s = (none, [unknownEventLog])) := by
  constructor
  · intro s j tag ty d v hp hmem hev hd hv
    fin_cases hmem <;>
      simp [parseMessage, parseMessageE, hp, handleParsed, hev,
        handleTag, parseArm, hd, hv]
  · intro s j tag hp hev hnot
    simp only [eventTagTable, List.map, List.mem_cons, List.not_mem_nil, or_false,
      not_or] at hnot
    obtain ⟨n1, n2, n3, n4, n5, n6, n7, n8, n9, n10, n11, n12, n13, n14, n15, n16⟩ := hnot
    simp [parseMessage, parseMessageE, hp, handleParsed, hev, handleTag,
      n1, n2, n3, n4, n5, n6, n7, n8, n9, n10, n11, n12, n13, n14, n15, n16]

/-- Witness for C3 at the chat-message tag with an empty-object payload,
and at an unrecognized tag. -/
theorem parseMessage_tag_table_witness :
    (parseMessage
        "\x7b\"event\":\"App\\\\Events\\\\ChatMessageEvent\",\"data\":\"\x7b\x7d\"\x7d").1 =
      some ⟨"ChatMessage", Json.obj []⟩ ∧
    parseMessage "\x7b\"event\":\"nobody:knows\"\x7d" = (none, [unknownEventLog]) :=
  ⟨parseMessage_tag_table.1 _
      (Json.obj [("event", Json.str "App\\Events\\ChatMessageEvent"),
                 ("data", Json.str "\x7b\x7d")])
      "App\\Events\\ChatMessageEvent" "ChatMessage"
      (Json.str "\x7b\x7d") (Json.obj []) rfl (by decide) rfl rfl rfl,
    parseMessage_tag_table.2 _
      (Json.obj [("event", Json.str "nobody:knows")]) "nobody:knows"
      rfl rfl (by decide)⟩

/-! ## Backoff, idempotence, and per-frame error containment -/

/-- C5: `scheduleReconnect` arms the timer with delay
min(base * 2 ^ attempts, max) — with the JavaScript || fallbacks on the
numeric options — whenever auto-reconnect is on, the attempt count is
below the cap, and the client was not explicitly disconnected; it
refuses (leaving the state untouched) otherwise; and with the default
options the delays for attempts 0..6 are 1000, 2000, 4000, 8000, 16000,
30000, 30000 ms. -/
theorem scheduleReconnect_backoff :
    (∀ (cfg : Config) (s : ClientState),
      cfg.connection.autoReconnect = true →
      s.reconnectAttempts < orDefault cfg.connection.maxReconnectAttempts 10 →
      s.isDisconnected = false →
      (scheduleReconnect cfg s).1.reconnectTimer =
        some (min (orDefault cfg.connection.reconnectInterval 1000 * 2 ^ s.reconnectAttempts)
                  (orDefault cfg.connection.maxReconnectInterval 30000))) ∧
    (∀ (cfg : Config) (s : ClientState),
      cfg.connection.autoReconnect = false ∨
        s.reconnectAttempts ≥ orDefault cfg.connection.maxReconnectAttempts 10 ∨
        s.isDisconnected = true →
      (scheduleReconnect cfg s).1 = s) ∧
    ((List.range 7).map (fun n =>
        (scheduleReconnect cfgDefault {initState with reconnectAttempts := n}).1.reconnectTimer) =
      [some 1000, some 2000, some 4000, some 8000, some 16000, some 30000, some 30000]) := by
  refine ⟨?_, ?_, by decide⟩
  · intro cfg s h1 h2 h3
    have hc : ¬(¬cfg.connection.autoReconnect ∨
        s.reconnectAttempts ≥ orDefault cfg.connection.maxReconnectAttempts 10 ∨
        s.isDisconnected) := by
      simp [h1, h3]
      omega
    unfold scheduleReconnect
    rw [if_neg hc]
  · intro cfg s h2
    have hc : (¬cfg.connection.autoReconnect ∨
        s.reconnectAttempts ≥ orDefault cfg.connection.maxReconnectAttempts 10 ∨
        s.isDisconnected) := by
      rcases h2 with h | h | h
      · exact Or.inl (by simp [h])
      · exact Or.inr (Or.inl h)
      · exact Or.inr (Or.inr (by simp [h]))
    unfold scheduleReconnect
    rw [if_pos hc]

/-- Witness for C5 at the default options and a fresh state: the first
delay is 1000 ms. -/
theorem scheduleReconnect_backoff_witness :
    (scheduleReconnect cfgDefault initState).1.reconnectTimer = some 1000 := by
  rw [scheduleReconnect_backoff.1 cfgDefault initState rfl (by decide) rfl]
  decide

/-- C8: while the socket exists and is open, `connect()` resolves
immediately without touching the state; a second call does the same, and
no additional socket is ever created (socketsCreated is unchanged). -/
theorem connect_idempotent_when_open (s : ClientState)
    (h : s.socket = some ReadyState.open) :
    connectStep s = (s, [.log .debug "Already connected to WebSocket", .resolveConnect]) ∧
    connectStep (connectStep s).1 =
      (s, [.log .debug "Already connected to WebSocket", .resolveConnect]) ∧
    (connectStep (connectStep s).1).1.socketsCreated = s.socketsCreated := by
  refine ⟨?_, ?_, ?_⟩ <;> simp [connectStep, h]

/-- Witness for C8 at a concrete connected state. -/
theorem connect_idempotent_when_open_witness :
    connectStep ⟨some .open, 1, some ⟨42, "xqc"⟩, .connected, 0, none, true, false, false, false⟩ =
      (⟨some .open, 1, some ⟨42, "xqc"⟩, .connected, 0, none, true, false, false, false⟩,
       [.log .debug "Already connected to WebSocket", .resolveConnect]) :=
  (connect_idempotent_when_open _ rfl).1

lemma parseMessage_of_decodeFails (f : String) (h : decodeFails f = true) :
    parseMessage f = (none, [parseFailLog]) := by
  unfold decodeFails at h
  unfold parseMessage
  cases hp : parseMessageE f with
  | error e => rfl
  | ok r => rw [hp] at h; simp at h

/-- C2 (amended): a frame whose decoding fails is contained entirely
within the per-frame handler: the closure's state — socket, connection
state, heartbeat, everything — is unchanged, the exception is logged at
error level, and nothing else happens; in particular the error callback
is not invoked and no event is emitted. -/
theorem decode_failure_isolated (cfg : Config) (s : ClientState) (frame : String)
    (h1 : s.isDisconnected = false) (h2 : decodeFails frame = true) :
    messageStep cfg s frame = (s, [Effect.log .error "Error parsing message:"]) := by
  simp [messageStep, messageEffects, h1, parseMessage_of_decodeFails frame h2,
    msgLogEffs, parseFailLog]

/-- Witness for C2's amended theorem at a concrete connected state and a
malformed frame. -/
theorem decode_failure_isolated_witness :
    messageStep cfgDefault
        ⟨some .open, 1, some ⟨42, "xqc"⟩, .connected, 0, none, true, false, false, false⟩
        "not json" =
      (⟨some .open, 1, some ⟨42, "xqc"⟩, .connected, 0, none, true, false, false, false⟩,
       [Effect.log .error "Error parsing message:"]) :=
  decode_failure_isolated cfgDefault _ "not json" rfl (by decide)

/-- Counterexample to C2 as stated: a failed decode is not reported
through the error callback as a WebsocketError.  At a concrete connected
state and malformed frame, the message handler produces only an
error-level log; its effects contain no errorCb invocation at all (the
connection is indeed untouched). -/
theorem decode_failure_no_callback_cx :
    step cfgDefault
        ⟨some .open, 1, some ⟨42, "xqc"⟩, .connected, 0, none, true, false, false, false⟩
        (.sockMessage "not json") =
      (⟨some .open, 1, some ⟨42, "xqc"⟩, .connected, 0, none, true, false, false, false⟩,
       [Effect.log .error "Error parsing message:"]) ∧
    Effect.errorCb ErrorType.websocket ∉
      (step cfgDefault
        ⟨some .open, 1, some ⟨42, "xqc"⟩, .connected, 0, none, true, false, false, false⟩
        (.sockMessage "not json")).2 := by
  refine ⟨by decide, by decide⟩

/-- C9 (amended): a callback that raises during dispatch aborts delivery
for that event: exactly the callbacks before it and the raising callback
itself run, and the remaining callbacks are not invoked (the exception
propagates to the per-frame catch in the message handler). -/
theorem listener_throw_stops_dispatch (fs : List Listener) (g : Listener)
    (hs : List Listener) (p : Json) (e : String)
    (hok : ∀ f ∈ fs, f p = .ok ()) (hg : g p = .error e) :
    runListeners (fs ++ g :: hs) p = (fs.length + 1, some e) := by
  induction fs with
  | nil => simp [runListeners, hg]
  | cons f rest ih =>
    have hf : f p = .ok () := hok f (List.mem_cons_self f rest)
    have hrest : ∀ f2 ∈ rest, f2 p = .ok () := fun f2 hm => hok f2 (List.mem_cons_of_mem f hm)
    simp [runListeners, hf, ih hrest]

/-- Witness for C9's amended theorem: one succeeding callback, then a
raising one, then one more — two callbacks run, the third does not. -/
theorem listener_throw_stops_dispatch_witness :
    runListeners ([fun _ => Except.ok ()] ++
      (fun _ => Except.error "boom") :: [fun _ => Except.ok ()]) Json.null =
      (2, some "boom") :=
  listener_throw_stops_dispatch [fun _ => Except.ok ()] _ _ Json.null "boom"
    (by intro f hf; rw [List.mem_singleton] at hf; subst hf; rfl) rfl

/-- Counterexample to C9 as stated: with two callbacks subscribed to the
same event, the first raising, dispatch invokes only one callback — the
second is never invoked with the payload, although the claim requires
both (an invocation count of 2). -/
theorem listener_throw_skips_rest_cx :
    runListeners [fun _ => Except.error "boom", fun _ => Except.ok ()] Json.null =
      (1, some "boom") ∧
    (runListeners [fun _ => Except.error "boom", fun _ => Except.ok ()] Json.null).1 ≠ 2 :=
  ⟨rfl, by decide⟩

/-! ## After an explicit disconnect -/

/-- Projection facts for setConnectionState: it only ever changes the
connectionState field (to the requested value), and its effects are a log
and the state-change callback. -/
@[simp] lemma setState_socket (s : ClientState) (st : ConnState) :
    (setState s st).1.socket = s.socket := by
  unfold setState; split_ifs <;> rfl

@[simp] lemma setState_socketsCreated (s : ClientState) (st : ConnState) :
    (setState s st).1.socketsCreated = s.socketsCreated := by
  unfold setState; split_ifs <;> rfl

@[simp] lemma setState_channelInfo (s : ClientState) (st : ConnState) :
    (setState s st).1.channelInfo = s.channelInfo := by
  unfold setState; split_ifs <;> rfl

@[simp] lemma setState_connectionState (s : ClientState) (st : ConnState) :
    (setState s st).1.connectionState = st := by
  unfold setState; split_ifs with h
  · exact h
  · rfl

@[simp] lemma setState_reconnectAttempts (s : ClientState) (st : ConnState) :
    (setState s st).1.reconnectAttempts = s.reconnectAttempts := by
  unfold setState; split_ifs <;> rfl

@[simp] lemma setState_reconnectTimer (s : ClientState) (st : ConnState) :
    (setState s st).1.reconnectTimer = s.reconnectTimer := by
  unfold setState; split_ifs <;> rfl

@[simp] lemma setState_heartbeatTimer (s : ClientState) (st : ConnState) :
    (setState s st).1.heartbeatTimer = s.heartbeatTimer := by
  unfold setState; split_ifs <;> rfl

@[simp] lemma setState_isDisconnected (s : ClientState) (st : ConnState) :
    (setState s st).1.isDisconnected = s.isDisconnected := by
  unfold setState; split_ifs <;> rfl

@[simp] lemma setState_fetchPending (s : ClientState) (st : ConnState) :
    (setState s st).1.fetchPending = s.fetchPending := by
  unfold setState; split_ifs <;> rfl

@[simp] lemma setState_schedulerAwaiting (s : ClientState) (st : ConnState) :
    (setState s st).1.schedulerAwaiting = s.schedulerAwaiting := by
  unfold setState; split_ifs <;> rfl

@[simp] lemma setState_no_scheduler (s : ClientState) (st : ConnState) :
    Effect.schedulerConnect ∉ (setState s st).2 := by
  unfold setState; split_ifs <;> simp

@[simp] lemma setState_no_ready (s : ClientState) (st : ConnState) (ci : Option ChannelInfo) :
    Effect.emitReady ci ∉ (setState s st).2 := by
  unfold setState; split_ifs <;> simp

/-- Projection facts for scheduleReconnect: it only ever touches the
reconnectTimer field, and its effects are logs. -/
@[simp] lemma sched_socket (cfg : Config) (s : ClientState) :
    (scheduleReconnect cfg s).1.socket = s.socket := by
  unfold scheduleReconnect; split_ifs <;> rfl

@[simp] lemma sched_socketsCreated (cfg : Config) (s : ClientState) :
    (scheduleReconnect cfg s).1.socketsCreated = s.socketsCreated := by
  unfold scheduleReconnect; split_ifs <;> rfl

@[simp] lemma sched_channelInfo (cfg : Config) (s : ClientState) :
    (scheduleReconnect cfg s).1.channelInfo = s.channelInfo := by
  unfold scheduleReconnect; split_ifs <;> rfl

@[simp] lemma sched_connectionState (cfg : Config) (s : ClientState) :
    (scheduleReconnect cfg s).1.connectionState = s.connectionState := by
  unfold scheduleReconnect; split_ifs <;> rfl

@[simp] lemma sched_reconnectAttempts (cfg : Config) (s : ClientState) :
    (scheduleReconnect cfg s).1.reconnectAttempts = s.reconnectAttempts := by
  unfold scheduleReconnect; split_ifs <;> rfl

@[simp] lemma sched_heartbeatTimer (cfg : Config) (s : ClientState) :
    (scheduleReconnect cfg s).1.heartbeatTimer = s.heartbeatTimer := by
  unfold scheduleReconnect; split_ifs <;> rfl

@[simp] lemma sched_isDisconnected (cfg : Config) (s : ClientState) :
    (scheduleReconnect cfg s).1.isDisconnected = s.isDisconnected := by
  unfold scheduleReconnect; split_ifs <;> rfl

@[simp] lemma sched_fetchPending (cfg : Config) (s : ClientState) :
    (scheduleReconnect cfg s).1.fetchPending = s.fetchPending := by
  unfold scheduleReconnect; split_ifs <;> rfl

@[simp] lemma sched_schedulerAwaiting (cfg : Config) (s : ClientState) :
    (scheduleReconnect cfg s).1.schedulerAwaiting = s.schedulerAwaiting := by
  unfold scheduleReconnect; split_ifs <;> rfl

@[simp] lemma sched_no_scheduler (cfg : Config) (s : ClientState) :
    Effect.schedulerConnect ∉ (scheduleReconnect cfg s).2 := by
  unfold scheduleReconnect; split_ifs <;> simp

@[simp] lemma sched_no_ready (cfg : Config) (s : ClientState) (ci : Option ChannelInfo) :
    Effect.emitReady ci ∉ (scheduleReconnect cfg s).2 := by
  unfold scheduleReconnect; split_ifs <;> simp

@[simp] lemma handleErrorEffs_no_scheduler (t : ErrorType) (m : String) :
    Effect.schedulerConnect ∉ handleErrorEffs t m := by
  simp [handleErrorEffs]

@[simp] lemma handleErrorEffs_no_ready (t : ErrorType) (m : String) (ci : Option ChannelInfo) :
    Effect.emitReady ci ∉ handleErrorEffs t m := by
  simp [handleErrorEffs]

/-- scheduleReconnect refuses once the client is explicitly disconnected. -/
lemma scheduleReconnect_disc (cfg : Config) (s : ClientState)
    (h : s.isDisconnected = true) :
    scheduleReconnect cfg s = (s, [.log .warn "Reconnection disabled or max attempts reached"]) := by
  unfold scheduleReconnect
  rw [if_pos (Or.inr (Or.inr (by simp [h])))]

/-- State facts that hold from the moment `disconnect()` returns and are
preserved by every subsequent event: the explicit-disconnect flag is set
(nothing ever clears it), the reconnect timer is disarmed, the state is
not Connected, and the heartbeat is stopped. -/
def DiscInv (s : ClientState) : Prop :=
  s.isDisconnected = true ∧ s.reconnectTimer = none ∧
  s.connectionState ≠ .connected ∧ s.heartbeatTimer = false

lemma discInv_step (cfg : Config) (s : ClientState) (e : Event) (h : DiscInv s) :
    DiscInv (step cfg s e).1 ∧
    Effect.schedulerConnect ∉ (step cfg s e).2 ∧
    ∀ ci, Effect.emitReady ci ∉ (step cfg s e).2 := by
  obtain ⟨h1, h2, h3, h4⟩ := h
  cases e with
  | connectCall =>
    simp only [step]
    unfold connectStep connectBegin
    split_ifs <;> simp_all [DiscInv]
  | fetchOk id =>
    simp only [step]
    unfold fetchOkStep connectCatch
    split_ifs <;> simp_all [DiscInv, scheduleReconnect_disc] <;>
      split_ifs <;> simp_all [scheduleReconnect_disc]
  | fetchErr =>
    simp only [step]
    unfold fetchErrStep connectCatch
    split_ifs <;> simp_all [DiscInv, scheduleReconnect_disc] <;>
      split_ifs <;> simp_all [scheduleReconnect_disc]
  | sockOpen =>
    simp only [step]
    unfold openStep
    split_ifs <;> simp_all [DiscInv, startHeartbeat]
  | sockMessage f =>
    simp only [step]
    split_ifs <;> simp_all [DiscInv, messageStep, messageEffects, msgLogEffs]
  | sockClose =>
    simp only [step]
    unfold closeStep stopHeartbeat
    cases hs : s.socket <;> simp_all [DiscInv, scheduleReconnect_disc]
  | sockError =>
    simp only [step]
    unfold errorStep stopHeartbeat
    cases hs : s.socket with
    | none => simp_all [DiscInv]
    | some rs =>
      by_cases hA : s.schedulerAwaiting = true <;>
        simp_all [DiscInv, scheduleReconnect_disc]
  | reconnectFire =>
    simp only [step]
    unfold reconnectFireStep
    simp_all [DiscInv]
  | heartbeatFire =>
    simp only [step]
    unfold heartbeatFireStep
    simp_all [DiscInv]
  | disconnectCall =>
    simp only [step]
    unfold disconnectStep stopHeartbeat
    cases hs : s.socket with
    | none => simp_all [DiscInv]
    | some rs => cases rs <;> simp_all [DiscInv]

lemma discInv_run (cfg : Config) (s : ClientState) (es : List Event) (h : DiscInv s) :
    DiscInv (run cfg s es).1 ∧
    Effect.schedulerConnect ∉ (run cfg s es).2 ∧
    ∀ ci, Effect.emitReady ci ∉ (run cfg s es).2 := by
  induction es generalizing s with
  | nil => exact ⟨by simpa [run] using h, by simp [run], by simp [run]⟩
  | cons e es ih =>
    obtain ⟨hstep, hsc, hready⟩ := discInv_step cfg s e h
    obtain ⟨hrun, hsc2, hready2⟩ := ih (step cfg s e).1 hstep
    refine ⟨by simpa [run] using hrun, ?_, ?_⟩
    · simp [run]
      exact ⟨hsc, hsc2⟩
    · intro ci
      simp [run]
      exact ⟨hready ci, hready2 ci⟩

lemma disconnect_establishes_discInv (s : ClientState) :
    DiscInv (disconnectStep s).1 ∧
    Effect.schedulerConnect ∉ (disconnectStep s).2 ∧
    ∀ ci, Effect.emitReady ci ∉ (disconnectStep s).2 := by
  unfold disconnectStep stopHeartbeat
  cases hs : s.socket with
  | none => simp_all [DiscInv]
  | some rs => cases rs <;> simp_all [DiscInv]

/-- C4: after an explicit `disconnect()`, no reconnection is ever
scheduled or executed.  The pending reconnect timer is cancelled by the
disconnect itself, it stays disarmed in every subsequently reachable
state (for any subsequent event sequence), and neither the disconnect nor
any later step ever has the scheduler invoke `connect()`. -/
theorem no_reconnect_after_disconnect (cfg : Config) (s : ClientState) (es : List Event) :
    (disconnectStep s).1.reconnectTimer = none ∧
    Effect.schedulerConnect ∉ (disconnectStep s).2 ∧
    (run cfg (disconnectStep s).1 es).1.reconnectTimer = none ∧
    Effect.schedulerConnect ∉ (run cfg (disconnectStep s).1 es).2 := by
  obtain ⟨hinv, hsc, _⟩ := disconnect_establishes_discInv s
  obtain ⟨hrinv, hrsc, _⟩ := discInv_run cfg (disconnectStep s).1 es hinv
  exact ⟨hinv.2.1, hsc, hrinv.2.1, hrsc⟩

/-- C10: a transport open event arriving after `disconnect()` — in any
state reachable by any event sequence after the disconnect — is ignored:
the connection state does not change (in particular never becomes
Connected), the heartbeat stays stopped, the reconnect attempt counter is
untouched, and no ready event is emitted, neither by the stale open nor
anywhere after the disconnect. -/
theorem stale_open_ignored_after_disconnect (cfg : Config) (s : ClientState) (es : List Event) :
    (openStep cfg (run cfg (disconnectStep s).1 es).1).1.connectionState =
      (run cfg (disconnectStep s).1 es).1.connectionState ∧
    (openStep cfg (run cfg (disconnectStep s).1 es).1).1.connectionState ≠ ConnState.connected ∧
    (openStep cfg (run cfg (disconnectStep s).1 es).1).1.heartbeatTimer = false ∧
    (openStep cfg (run cfg (disconnectStep s).1 es).1).1.reconnectAttempts =
      (run cfg (disconnectStep s).1 es).1.reconnectAttempts ∧
    (∀ ci, Effect.emitReady ci ∉ (openStep cfg (run cfg (disconnectStep s).1 es).1).2) ∧
    (∀ ci, Effect.emitReady ci ∉ (run cfg (disconnectStep s).1 es).2) := by
  obtain ⟨hinv, _, _⟩ := disconnect_establishes_discInv s
  obtain ⟨⟨h1, h2, h3, h4⟩, _, hready⟩ := discInv_run cfg (disconnectStep s).1 es hinv
  refine ⟨?_, ?_, ?_, ?_, ?_, hready⟩ <;>
    · unfold openStep
      split_ifs <;> simp_all

/-! ## Heartbeat and channel identity -/

lemma startHeartbeat_on (cfg : Config) (s : ClientState)
    (h : cfg.connection.heartbeatInterval ≠ 0) :
    (startHeartbeat cfg s).heartbeatTimer = true := by
  unfold startHeartbeat
  split_ifs with hc
  · rcases hc with hc | hc
    · exact absurd hc h
    · exact hc
  · rfl

lemma hb0_step (cfg : Config) (s : ClientState) (e : Event)
    (hz : cfg.connection.heartbeatInterval = 0) (h : s.heartbeatTimer = false) :
    (step cfg s e).1.heartbeatTimer = false := by
  cases e with
  | connectCall =>
    simp only [step]; unfold connectStep connectBegin
    split_ifs <;> simp_all
  | fetchOk id =>
    simp only [step]; unfold fetchOkStep connectCatch
    by_cases hA : s.schedulerAwaiting = true <;> split_ifs <;> simp_all
  | fetchErr =>
    simp only [step]; unfold fetchErrStep connectCatch
    by_cases hA : s.schedulerAwaiting = true <;> split_ifs <;> simp_all
  | sockOpen =>
    simp only [step]; unfold openStep startHeartbeat
    by_cases hD : s.isDisconnected = true <;> split_ifs <;> simp_all
  | sockMessage f =>
    simp only [step]; unfold messageStep
    split_ifs <;> simp_all
  | sockClose =>
    simp only [step]; unfold closeStep stopHeartbeat
    cases hs : s.socket with
    | none => simp_all
    | some rs => by_cases hD : s.isDisconnected = true <;> simp_all
  | sockError =>
    simp only [step]; unfold errorStep stopHeartbeat
    cases hs : s.socket with
    | none => simp_all
    | some rs => by_cases hA : s.schedulerAwaiting = true <;> simp_all
  | reconnectFire =>
    simp only [step]; unfold reconnectFireStep connectBegin
    cases ht : s.reconnectTimer with
    | none => simp_all
    | some d => by_cases ho : s.socket = some ReadyState.open <;> simp_all
  | heartbeatFire =>
    simp only [step]; unfold heartbeatFireStep
    simp_all
  | disconnectCall =>
    simp only [step]; unfold disconnectStep stopHeartbeat
    cases hs : s.socket with
    | none => simp_all
    | some rs => cases rs <;> simp_all

lemma hb0_run (cfg : Config) (s : ClientState) (es : List Event)
    (hz : cfg.connection.heartbeatInterval = 0) (h : s.heartbeatTimer = false) :
    (run cfg s es).1.heartbeatTimer = false := by
  induction es generalizing s with
  | nil => simpa [run] using h
  | cons e es ih =>
    simpa [run] using ih (step cfg s e).1 (hb0_step cfg s e hz h)

/-- C6 (amended): the start and stop discipline of the heartbeat timer.
With heartbeatInterval 0 (a falsy option) it is never active in any
reachable state; it is started exactly by an accepted transport open
(client not explicitly disconnected, interval nonzero) — the transition
into Connected — and stopped by the close handler, the error handler, and
disconnect(); no other transition changes it.  The unconditional
active-iff-Connected claim fails for the zero-interval configuration. -/
theorem heartbeat_discipline :
    (∀ (cfg : Config) (es : List Event), cfg.connection.heartbeatInterval = 0 →
      (run cfg initState es).1.heartbeatTimer = false) ∧
    (∀ (cfg : Config) (s : ClientState), s.socket = some ReadyState.connecting →
      s.isDisconnected = false → cfg.connection.heartbeatInterval ≠ 0 →
      (openStep cfg s).1.heartbeatTimer = true) ∧
    (∀ (cfg : Config) (s : ClientState), s.socket ≠ none →
      (closeStep cfg s).1.heartbeatTimer = false) ∧
    (∀ (cfg : Config) (s : ClientState), s.socket ≠ none →
      (errorStep cfg s).1.heartbeatTimer = false) ∧
    (∀ s : ClientState, (disconnectStep s).1.heartbeatTimer = false) ∧
    (∀ s : ClientState, (connectStep s).1.heartbeatTimer = s.heartbeatTimer) ∧
    (∀ (cfg : Config) (s : ClientState) (id : Int),
      (fetchOkStep cfg s id).1.heartbeatTimer = s.heartbeatTimer) ∧
    (∀ (cfg : Config) (s : ClientState),
      (fetchErrStep cfg s).1.heartbeatTimer = s.heartbeatTimer) ∧
    (∀ (cfg : Config) (s : ClientState) (f : String),
      (messageStep cfg s f).1.heartbeatTimer = s.heartbeatTimer) ∧
    (∀ s : ClientState, (reconnectFireStep s).1.heartbeatTimer = s.heartbeatTimer) ∧
    (∀ s : ClientState, (heartbeatFireStep s).1.heartbeatTimer = s.heartbeatTimer) := by
  refine ⟨fun cfg es hz => hb0_run cfg initState es hz rfl, ?_, ?_, ?_, ?_, ?_, ?_, ?_, ?_, ?_, ?_⟩
  · intro cfg s hsock hdisc hz
    unfold openStep
    rw [if_pos hsock, if_neg (by simp [hdisc])]
    simp [startHeartbeat_on cfg _ hz]
  · intro cfg s hsock
    unfold closeStep stopHeartbeat
    cases hs : s.socket with
    | none => exact absurd hs hsock
    | some rs => by_cases hD : s.isDisconnected = true <;> simp_all
  · intro cfg s hsock
    unfold errorStep stopHeartbeat
    cases hs : s.socket with
    | none => exact absurd hs hsock
    | some rs => by_cases hA : s.schedulerAwaiting = true <;> simp_all
  · intro s
    unfold disconnectStep stopHeartbeat
    cases hs : s.socket with
    | none => simp_all
    | some rs => cases rs <;> simp_all
  · intro s
    unfold connectStep connectBegin
    split_ifs <;> simp_all
  · intro cfg s id
    unfold fetchOkStep connectCatch
    by_cases hA : s.schedulerAwaiting = true <;> split_ifs <;> simp_all
  · intro cfg s
    unfold fetchErrStep connectCatch
    by_cases hA : s.schedulerAwaiting = true <;> split_ifs <;> simp_all
  · intro cfg s f
    unfold messageStep
    simp
  · intro s
    unfold reconnectFireStep connectBegin
    cases ht : s.reconnectTimer with
    | none => simp
    | some d => by_cases ho : s.socket = some ReadyState.open <;> simp_all
  · intro s
    unfold heartbeatFireStep
    simp

/-- Witness for C6's amended theorem: an accepted open with the default
(nonzero) interval starts the heartbeat, and with a zero interval a full
connect trace never activates it. -/
theorem heartbeat_discipline_witness :
    (openStep cfgDefault
        ⟨some .connecting, 1, some ⟨42, "xqc"⟩, .connecting, 0, none, false, false, false, false⟩).1.heartbeatTimer
      = true ∧
    (run ⟨"xqc", false, ⟨true, 10, 1000, 30000, 0⟩⟩ initState
        [.connectCall, .fetchOk 42, .sockOpen]).1.heartbeatTimer = false :=
  ⟨heartbeat_discipline.2.1 cfgDefault _ rfl rfl (by decide),
   heartbeat_discipline.1 ⟨"xqc", false, ⟨true, 10, 1000, 30000, 0⟩⟩
     [.connectCall, .fetchOk 42, .sockOpen] rfl⟩

/-- Counterexample to C6 as stated: with heartbeatInterval 0 the client
reaches the Connected state with no heartbeat timer active, so the
active-iff-Connected equivalence fails for that configuration (which the
claim explicitly includes). -/
theorem heartbeat_zero_interval_cx :
    (run ⟨"xqc", false, ⟨true, 10, 1000, 30000, 0⟩⟩ initState
        [.connectCall, .fetchOk 42, .sockOpen]).1.connectionState = ConnState.connected ∧
    (run ⟨"xqc", false, ⟨true, 10, 1000, 30000, 0⟩⟩ initState
        [.connectCall, .fetchOk 42, .sockOpen]).1.heartbeatTimer = false := by
  exact ⟨by decide, by decide⟩

/-- C7 (amended): channelInfo is populated the moment the channel
resolution succeeds — while the state is still Connecting, before the
transport opens — and is cleared exactly by `disconnect()`; every other
transition, including the transport error handler, leaves it unchanged
(so it persists through Connected and Error). -/
theorem channelInfo_discipline :
    (∀ s : ClientState, (disconnectStep s).1.channelInfo = none) ∧
    (∀ (cfg : Config) (s : ClientState) (id : Int), s.fetchPending = true → id ≠ 0 →
      (fetchOkStep cfg s id).1.channelInfo = some ⟨id, cfg.channelName⟩) ∧
    (∀ (cfg : Config) (s : ClientState) (id : Int), s.fetchPending = false ∨ id = 0 →
      (fetchOkStep cfg s id).1.channelInfo = s.channelInfo) ∧
    (∀ s : ClientState, (connectStep s).1.channelInfo = s.channelInfo) ∧
    (∀ (cfg : Config) (s : ClientState),
      (fetchErrStep cfg s).1.channelInfo = s.channelInfo) ∧
    (∀ (cfg : Config) (s : ClientState),
      (openStep cfg s).1.channelInfo = s.channelInfo) ∧
    (∀ (cfg : Config) (s : ClientState),
      (closeStep cfg s).1.channelInfo = s.channelInfo) ∧
    (∀ (cfg : Config) (s : ClientState),
      (errorStep cfg s).1.channelInfo = s.channelInfo) ∧
    (∀ (cfg : Config) (s : ClientState) (f : String),
      (messageStep cfg s f).1.channelInfo = s.channelInfo) ∧
    (∀ s : ClientState, (reconnectFireStep s).1.channelInfo = s.channelInfo) ∧
    (∀ s : ClientState, (heartbeatFireStep s).1.channelInfo = s.channelInfo) := by
  refine ⟨?_, ?_, ?_, ?_, ?_, ?_, ?_, ?_, ?_, ?_, ?_⟩
  · intro s
    unfold disconnectStep stopHeartbeat
    cases hs : s.socket with
    | none => simp_all
    | some rs => cases rs <;> simp_all
  · intro cfg s id hf hid
    unfold fetchOkStep
    rw [if_neg (by simp [hf]), if_neg hid]
  · intro cfg s id h
    rcases h with h | h
    · unfold fetchOkStep
      rw [if_pos (by simp [h])]
    · unfold fetchOkStep connectCatch
      by_cases hA : s.schedulerAwaiting = true <;> split_ifs <;> simp_all
  · intro s
    unfold connectStep connectBegin
    split_ifs <;> simp_all
  · intro cfg s
    unfold fetchErrStep connectCatch
    by_cases hA : s.schedulerAwaiting = true <;> split_ifs <;> simp_all
  · intro cfg s
    unfold openStep startHeartbeat
    by_cases hso : s.socket = some ReadyState.connecting <;>
      by_cases hD : s.isDisconnected = true <;>
      by_cases hz : cfg.connection.heartbeatInterval = 0 ∨ s.heartbeatTimer = true <;>
      simp_all
  · intro cfg s
    unfold closeStep stopHeartbeat
    cases hs : s.socket with
    | none => simp
    | some rs => by_cases hD : s.isDisconnected = true <;> simp_all
  · intro cfg s
    unfold errorStep stopHeartbeat
    cases hs : s.socket with
    | none => simp
    | some rs => by_cases hA : s.schedulerAwaiting = true <;> simp_all
  · intro cfg s f
    unfold messageStep
    simp
  · intro s
    unfold reconnectFireStep connectBegin
    cases ht : s.reconnectTimer with
    | none => simp
    | some d => by_cases ho : s.socket = some ReadyState.open <;> simp_all
  · intro s
    unfold heartbeatFireStep
    simp

/-- Witness for C7's amended theorem: a successful resolution populates
channelInfo, and a disconnect from that state clears it. -/
theorem channelInfo_discipline_witness :
    (fetchOkStep cfgDefault
        ⟨none, 0, none, .connecting, 0, none, false, false, true, false⟩ 42).1.channelInfo =
      some ⟨42, "xqc"⟩ ∧
    (disconnectStep
        ⟨some .open, 1, some ⟨42, "xqc"⟩, .connected, 0, none, true, false, false, false⟩).1.channelInfo =
      none :=
  ⟨channelInfo_discipline.2.1 cfgDefault _ 42 rfl (by decide),
   channelInfo_discipline.1 _⟩

/-- Counterexample to C7 as stated: after `connect()` resolves the
channel but before the transport opens, channelInfo is already non-null
while the connection state is Connecting — not Connected, and the
connection attempt has not succeeded. -/
theorem channelInfo_while_connecting_cx :
    (run cfgDefault initState [.connectCall, .fetchOk 42]).1.channelInfo =
      some ⟨42, "xqc"⟩ ∧
    (run cfgDefault initState [.connectCall, .fetchOk 42]).1.connectionState =
      ConnState.connecting := by
  exact ⟨by decide, by decide⟩

end KickJs
